import Mathlib

/-!
Shallow embedding of `mongo/src/mongo/transport/service_executor_adaptive.cpp`
(the adaptive service executor: admission via `schedule`, the starvation
predicate `_isStarved`, the controller loop body, the worker slice-end
retirement decision, the worker-thread spawn path, the jitter computation and
the `reservedThreads` server-parameter resolution).

Machine integers of the source (C++ `int` / `int64_t` atomics, tick counts)
are embedded as `Int` (unbounded); tick and millisecond quantities never
approach 2^63 in any scenario considered here, so overflow is not modelled.
The `double` arithmetic of the source (utilization and idle percentages) is
embedded as exact rational arithmetic over `ℚ`.
-/

namespace SEAdaptive

/-- The `ServiceExecutorAdaptive::Options` configuration surface
(`ServerParameterOptions` in the source).  All values are C++ `int`s
(milliseconds / microseconds where noted). -/
structure Options where
  reservedThreads : Int
  workerThreadRunTime : Int
  runTimeJitter : Int
  stuckThreadTimeout : Int
  maxQueueLatency : Int
  idlePctThreshold : Int
  recursionLimit : Int
deriving DecidableEq, Repr

/-- The atomic statistic counters of `ServiceExecutorAdaptive`
(`_threadsRunning`, `_threadsPending`, `_threadsInUse`, `_tasksQueued`,
`_deferredTasksQueued`, `_totalQueued`, `_totalExecuted`). -/
structure ExecStats where
  threadsRunning : Int
  threadsPending : Int
  threadsInUse : Int
  tasksQueued : Int
  deferredTasksQueued : Int
  totalQueued : Int
  totalExecuted : Int
deriving DecidableEq, Repr

/-- `ServiceExecutorAdaptive::_isStarved` (service_executor_adaptive.cpp:260-275):
returns false if `_threadsPending.load() > 0`; then loads `_tasksQueued` and
returns false if it is 0; otherwise computes
`available = _threadsRunning.load() - _threadsInUse.load()` and returns
`tasksQueued > available`. -/
def isStarved (s : ExecStats) : Bool :=
  if s.threadsPending > 0 then false
  else
    let tasksQueued := s.tasksQueued
    if tasksQueued = 0 then false
    else
      let available := s.threadsRunning - s.threadsInUse
      tasksQueued > available

/-- `ServiceExecutor::ScheduleFlags`: the two flag bits consulted by
`ServiceExecutorAdaptive::schedule` (`kMayRecurse`, `kDeferredTask`). -/
structure ScheduleFlags where
  mayRecurse : Bool
  deferredTask : Bool
deriving DecidableEq, Repr

/-- Status outcomes of `ServiceExecutorAdaptive::schedule`. -/
inductive Status where
  | ok
  | shutdownInProgress
deriving DecidableEq, Repr

/-- How (and whether) `schedule` handed the wrapped task to the asio reactor:
`_ioContext->dispatch` (may run inline on the submitter), `_ioContext->post`
(enqueue only), or not at all (early return). -/
inductive ReactorHandoff where
  | none
  | dispatched
  | posted
deriving DecidableEq, Repr

/-- Observable outcome of one `schedule` call: the returned status, the
counter state after the call, how the task reached the reactor, whether
`_lastScheduleTimer.reset()` ran, and whether `_scheduleCondition` was
notified. -/
structure ScheduleResult where
  status : Status
  stats : ExecStats
  handoff : ReactorHandoff
  timerReset : Bool
  notified : Bool
deriving DecidableEq, Repr

/-- `ServiceExecutorAdaptive::schedule` (service_executor_adaptive.cpp:197-258).
`isRunning` is `_isRunning.load()`; `recursionDepth` is the submitting
worker's `_localThreadState->recursionDepth` (only consulted when
`kMayRecurse` is set).  Steps, in source order:
1. choose the pending counter (`_deferredTasksQueued` for `kDeferredTask`,
   else `_tasksQueued`) and `addAndFetch(1)` it;
2. if `!_isRunning.load()`, return `ShutdownInProgress`;
3. if `(flags & kMayRecurse) && (recursionDepth + 1 < recursionLimit())`,
   `dispatch` the wrapped task, else `post` it;
4. `_lastScheduleTimer.reset()`; `_totalQueued.addAndFetch(1)`;
5. if `_isStarved() && !(flags & kDeferredTask)`, notify the controller. -/
def schedule (cfg : Options) (isRunning : Bool) (recursionDepth : Int)
    (flags : ScheduleFlags) (s : ExecStats) : ScheduleResult :=
  let s1 :=
    if flags.deferredTask then
      { s with deferredTasksQueued := s.deferredTasksQueued + 1 }
    else
      { s with tasksQueued := s.tasksQueued + 1 }
  if !isRunning then
    { status := Status.shutdownInProgress, stats := s1,
      handoff := ReactorHandoff.none, timerReset := false, notified := false }
  else
    let handoff :=
      if flags.mayRecurse ∧ recursionDepth + 1 < cfg.recursionLimit then
        ReactorHandoff.dispatched
      else
        ReactorHandoff.posted
    let s2 := { s1 with totalQueued := s1.totalQueued + 1 }
    { status := Status.ok, stats := s2, handoff := handoff,
      timerReset := true,
      notified := isStarved s2 && !flags.deferredTask }

/-- Observable actions of one body execution of the controller loop
(`_controllerThreadRoutine`): how many `_startWorkerThread()` calls the stuck
path made, how many the reserve-refill loop made, whether the utilization
gate was reached, whether the latency-budget `sleep_for` loop ran, and
whether the starvation check spawned a worker. -/
structure ControllerStep where
  stuckSpawns : Nat
  refillSpawns : Nat
  utilizationGateReached : Bool
  latencyWaited : Bool
  starvationSpawn : Bool
deriving DecidableEq, Repr

/-- One body execution of `ServiceExecutorAdaptive::_controllerThreadRoutine`
(service_executor_adaptive.cpp:291-379), after the `wait_for` and the
`_isRunning` re-check.  Inputs are the values the body reads:
`sinceLastControlRound` = `sinceLastControlRound.sinceStart()` in ms,
`sinceLastSchedule` = `_lastScheduleTimer.sinceStart()` in ms,
`diffExecuting` / `diffRunning` the tick deltas against the last snapshot,
`spentRunning` the current running-tick total, and `s` the counters.
Steps, in source order:
1. `utilizationPct := 0` if `spentRunning == 0 || diffRunning == 0`, else
   `100 * diffExecuting / diffRunning` (double division, embedded as ℚ);
2. if `sinceLastControlRound >= stuckThreadTimeout()`: when
   `_threadsInUse.load() == _threadsRunning.load()` and
   `sinceLastSchedule >= stuckThreadTimeout()`, run
   `for (int i = 0; i < reservedThreads(); i++) _startWorkerThread();`
   then `continue` (unconditionally) — nothing below runs this iteration;
3. reserve refill: `while (_threadsRunning.load() < reservedThreads())
   _startWorkerThread();` (each spawn pre-increments `_threadsRunning` and
   `_threadsPending`);
4. if `utilizationPct < idlePctThreshold()`, `continue`;
5. `do sleep_for(maxQueueLatency()) while (...)` — runs at least once;
6. if `_isStarved()`, `_startWorkerThread()` once. -/
def controllerStep (cfg : Options) (sinceLastControlRound sinceLastSchedule : Int)
    (diffExecuting diffRunning spentRunning : Int) (s : ExecStats) : ControllerStep :=
  let utilizationPct : ℚ :=
    if spentRunning = 0 ∨ diffRunning = 0 then 0
    else 100 * ((diffExecuting : ℚ) / (diffRunning : ℚ))
  if sinceLastControlRound ≥ cfg.stuckThreadTimeout then
    if s.threadsInUse = s.threadsRunning ∧ sinceLastSchedule ≥ cfg.stuckThreadTimeout then
      { stuckSpawns := cfg.reservedThreads.toNat, refillSpawns := 0,
        utilizationGateReached := false, latencyWaited := false,
        starvationSpawn := false }
    else
      { stuckSpawns := 0, refillSpawns := 0, utilizationGateReached := false,
        latencyWaited := false, starvationSpawn := false }
  else
    let refill := (cfg.reservedThreads - s.threadsRunning).toNat
    let s1 := { s with threadsRunning := s.threadsRunning + refill,
                       threadsPending := s.threadsPending + refill }
    if utilizationPct < (cfg.idlePctThreshold : ℚ) then
      { stuckSpawns := 0, refillSpawns := refill, utilizationGateReached := true,
        latencyWaited := false, starvationSpawn := false }
    else
      { stuckSpawns := 0, refillSpawns := refill, utilizationGateReached := true,
        latencyWaited := true, starvationSpawn := isStarved s1 }

/-- The slice-end decision of `ServiceExecutorAdaptive::_workerThreadRoutine`
(service_executor_adaptive.cpp:541-567), taken after `markStopped()` returned
`spentRunning`: if `stillPending`, the thread transitions out of pending and
does not exit; else if `_threadsRunning.load() > reservedThreads()`, it
computes `executingToRunning = executingCurRun / (double)spentRunning`,
multiplies by 100, truncates to `int pctExecuting`, and breaks out of the
loop exactly when `pctExecuting < idlePctThreshold()`.  Returns `true` iff
the worker voluntarily exits its loop here.  Tick counts are nonnegative, so
the `double` truncation is floor division, embedded as `Nat` division. -/
def workerSliceExit (cfg : Options) (stillPending : Bool) (threadsRunning : Int)
    (executingCurRun spentRunning : Nat) : Bool :=
  if stillPending then false
  else if threadsRunning > cfg.reservedThreads then
    let pctExecuting : Int := (100 * executingCurRun / spentRunning : Nat)
    pctExecuting < cfg.idlePctThreshold
  else false

/-- `ServiceExecutorAdaptive::_getThreadJitter`
(service_executor_adaptive.cpp:409-428), with the random draw made explicit:
`draw` is the value `jitterDist(randomEngine)` produced, which lies in
`[-runTimeJitter(), +runTimeJitter()]`.  If `runTimeJitter() == 0` the
function returns 0 without drawing; otherwise it clamps the draw to 0 only
when `jitter > workerThreadRunTime().count()`, and returns it. -/
def getThreadJitter (cfg : Options) (draw : Int) : Int :=
  if cfg.runTimeJitter = 0 then 0
  else if draw > cfg.workerThreadRunTime then 0
  else draw

/-- The run-slice length computed at the top of each worker loop iteration
(service_executor_adaptive.cpp:495): `runTime = workerThreadRunTime() + jitter`
(ms), on which the source then asserts `dassert(runTime.count() > 0)`. -/
def workerRunTime (cfg : Options) (draw : Int) : Int :=
  cfg.workerThreadRunTime + getThreadJitter cfg draw

/-- The per-thread and executor state touched by the `wrappedTask` lambda
built inside `schedule` (service_executor_adaptive.cpp:206-227):
`recursionDepth` and `executingCurRun` live in the worker's
`_localThreadState`; `execOpen`/`execStart` model the `executing` TickTimer
(`markRunning` records the start tick of an open interval, `markStopped`
closes it and returns the elapsed ticks); `threadsInUse` and `totalExecuted`
are executor atomics. -/
structure TaskEnv where
  recursionDepth : Int
  execOpen : Bool
  execStart : Int
  executingCurRun : Int
  threadsInUse : Int
  totalExecuted : Int
deriving DecidableEq, Repr

/-- Entry accounting of `wrappedTask` at tick `now`
(service_executor_adaptive.cpp:212-215): post-increment of
`_localThreadState->recursionDepth`; when its old value was 0 (outermost
task), `executing.markRunning()` and `_threadsInUse.addAndFetch(1)`. -/
def taskEnter (st : TaskEnv) (now : Int) : TaskEnv :=
  let st1 := { st with recursionDepth := st.recursionDepth + 1 }
  if st.recursionDepth = 0 then
    { st1 with execOpen := true, execStart := now,
               threadsInUse := st.threadsInUse + 1 }
  else st1

/-- The scope guard of `wrappedTask`, run on every exit path at tick `now`
(service_executor_adaptive.cpp:218-224): pre-decrement of `recursionDepth`;
when the new value is 0, `executingCurRun += executing.markStopped()`
(the open interval `now - execStart`) and `_threadsInUse.subtractAndFetch(1)`;
then, at every depth, `_totalExecuted.addAndFetch(1)`. -/
def taskExit (st : TaskEnv) (now : Int) : TaskEnv :=
  let st1 := { st with recursionDepth := st.recursionDepth - 1 }
  let st2 :=
    if st.recursionDepth - 1 = 0 then
      { st1 with execOpen := false,
                 executingCurRun := st1.executingCurRun + (now - st1.execStart),
                 threadsInUse := st1.threadsInUse - 1 }
    else st1
  { st2 with totalExecuted := st2.totalExecuted + 1 }

/-- A balanced nested execution of `n` wrapped task bodies on one worker
thread, as produced by recursive `dispatch`: body `i` runs `taskEnter` at
tick `tE i`, then (when bodies remain) the next body, then its scope guard
`taskExit` at tick `tX i`.  `runNestedFrom n i` runs bodies `i, i+1, …`. -/
def runNestedFrom : Nat → Nat → (Nat → Int) → (Nat → Int) → TaskEnv → TaskEnv
  | 0, _, _, _, st => st
  | n + 1, i, tE, tX, st =>
      taskExit (runNestedFrom n (i + 1) tE tX (taskEnter st (tE i))) (tX i)

/-- A balanced nested execution of `n` wrapped task bodies starting with
body 0. -/
def runNested (n : Nat) (tE tX : Nat → Int) (st : TaskEnv) : TaskEnv :=
  runNestedFrom n 0 tE tX st

/-- The state touched by `ServiceExecutorAdaptive::_startWorkerThread`
(service_executor_adaptive.cpp:384-406): the `_threads` list (elements
abstracted to identifiers) and the `_threadsPending` / `_threadsRunning`
atomics. -/
structure ThreadsState where
  threads : List Nat
  threadsPending : Int
  threadsRunning : Int
deriving DecidableEq, Repr

/-- `ServiceExecutorAdaptive::_startWorkerThread`
(service_executor_adaptive.cpp:384-406).  Under `_threadsMutex`, emplace a
new `ThreadState` at `_threads.begin()`, then `_threadsPending.addAndFetch(1)`
and `_threadsRunning.addAndFetch(1)`; unlock and launch the OS thread
(`launchOk` = `launchResult.isOK()`).  If the launch failed: relock,
`subtractAndFetch(1)` both counters, and `_threads.erase(it)` (the iterator
to the just-emplaced front element).  The C++ function returns `void`: no
status reaches the caller on either path, only the resulting state. -/
def startWorkerThread (launchOk : Bool) (newThread : Nat) (s : ThreadsState) : ThreadsState :=
  let s1 : ThreadsState :=
    { threads := newThread :: s.threads,
      threadsPending := s.threadsPending + 1,
      threadsRunning := s.threadsRunning + 1 }
  if launchOk then s1
  else
    { threads := s1.threads.tail,
      threadsPending := s1.threadsPending - 1,
      threadsRunning := s1.threadsRunning - 1 }

/-- The declared default of the `adaptiveServiceExecutorReservedThreads`
server parameter: `MONGO_EXPORT_SERVER_PARAMETER(adaptiveServiceExecutorReservedThreads, int, 1)`
(service_executor_adaptive.cpp:53, annotated `yang change debug`; the comment
above it at lines 50-52 documents the default as -1). -/
def adaptiveServiceExecutorReservedThreadsDefault : Int := 1

/-- `ServerParameterOptions::reservedThreads`
(service_executor_adaptive.cpp:101-112): load the stored parameter value; if
it equals -1, replace it by `max(cores / 2, 2)` (C++ `int` division of the
nonnegative core count) and store that back (memoization); return the value.
Returns the pair (returned value, stored value after the call).  `param` is
the stored parameter value before the call, `cores` the available core
count. -/
def reservedThreadsResolve (cores : Nat) (param : Int) : Int × Int :=
  let value := param
  if value = -1 then
    let v := max ((cores : Int) / 2) 2
    (v, v)
  else (value, param)

/-! ## Theorems -/

/-- C1: for every executor state, `_isStarved` returns false when
`threads_pending > 0`; otherwise returns false when `tasks_queued == 0`;
otherwise it returns true exactly when `tasks_queued` is greater than
`threads_running - threads_in_use`. -/
theorem isStarved_iff (s : ExecStats) :
    isStarved s = true ↔
      s.threadsPending ≤ 0 ∧ s.tasksQueued ≠ 0 ∧
        s.threadsRunning - s.threadsInUse < s.tasksQueued := by
  simp only [isStarved]
  split_ifs with h1 h2
  · simp only [Bool.false_eq_true, false_iff]
    intro h
    omega
  · simp only [Bool.false_eq_true, false_iff]
    intro h
    omega
  · simp only [decide_eq_true_eq, gt_iff_lt]
    omega

/-- C7: `schedule` increments the chosen pending counter (`_tasksQueued`, or
`_deferredTasksQueued` for a deferred task) before checking `_isRunning`;
when running is false it returns `ShutdownInProgress` with that counter left
incremented, without handing the task to the reactor, without resetting
`_lastScheduleTimer`, and without incrementing `_totalQueued`; when running
is true, `_totalQueued` is incremented and the task is handed to
dispatch/post. -/
theorem schedule_shutdown_path (cfg : Options) (d : Int) (flags : ScheduleFlags)
    (s : ExecStats) :
    ((schedule cfg false d flags s).status = Status.shutdownInProgress ∧
     (schedule cfg false d flags s).handoff = ReactorHandoff.none ∧
     (schedule cfg false d flags s).timerReset = false ∧
     (schedule cfg false d flags s).stats.totalQueued = s.totalQueued ∧
     (schedule cfg false d flags s).stats.deferredTasksQueued =
       s.deferredTasksQueued + (if flags.deferredTask then 1 else 0) ∧
     (schedule cfg false d flags s).stats.tasksQueued =
       s.tasksQueued + (if flags.deferredTask then 0 else 1)) ∧
    ((schedule cfg true d flags s).status = Status.ok ∧
     (schedule cfg true d flags s).stats.totalQueued = s.totalQueued + 1 ∧
     (schedule cfg true d flags s).handoff ≠ ReactorHandoff.none ∧
     (schedule cfg true d flags s).timerReset = true) := by
  obtain ⟨mr, df⟩ := flags
  refine ⟨?_, ?_⟩
  · cases df <;> simp [schedule]
  · cases df <;> cases mr <;> simp [schedule] <;> split <;> simp

/-- C4: a `schedule` call while running is handed to `dispatch` exactly when
`kMayRecurse` is set and the submitting worker's `recursionDepth + 1` is
below `recursionLimit()`; in every other case it is handed to `post`.  With
`recursionLimit = 3`, a re-submission with `kMayRecurse` from a task at
depth 1 is dispatched (runs inline at depth 2) and the re-submission from
depth 2 — which would run at depth 3 — is posted. -/
theorem schedule_dispatch_iff (cfg : Options) (d : Int) (flags : ScheduleFlags)
    (s : ExecStats) :
    ((schedule cfg true d flags s).handoff = ReactorHandoff.dispatched ↔
       flags.mayRecurse = true ∧ d + 1 < cfg.recursionLimit) ∧
    ((schedule cfg true d flags s).handoff = ReactorHandoff.posted ↔
       ¬(flags.mayRecurse = true ∧ d + 1 < cfg.recursionLimit)) ∧
    (schedule { cfg with recursionLimit := 3 } true 1
        { mayRecurse := true, deferredTask := false } s).handoff =
      ReactorHandoff.dispatched ∧
    (schedule { cfg with recursionLimit := 3 } true 2
        { mayRecurse := true, deferredTask := false } s).handoff =
      ReactorHandoff.posted := by
  obtain ⟨mr, df⟩ := flags
  refine ⟨?_, ?_, ?_, ?_⟩
  · cases mr <;> simp [schedule]
  · cases mr <;> simp [schedule]
  · norm_num [schedule]
  · norm_num [schedule]

/-- C9: when the OS-thread launch fails, `_startWorkerThread` decrements
`_threadsPending` and `_threadsRunning` and erases the just-emplaced
`ThreadState`, leaving the whole state equal to its value before the call;
the function's return type carries no status, so no error reaches the
caller that requested the spawn. -/
theorem startWorkerThread_failure_rolls_back (newThread : Nat) (s : ThreadsState) :
    startWorkerThread false newThread s = s := by
  cases s with
  | mk t p r =>
    simp [startWorkerThread]

/-- C8: the `adaptiveServiceExecutorReservedThreads` parameter is declared
with default 1 (the `yang change debug` edit), not -1 as the adjacent
comment and the spec state; the resolution logic itself behaves as
specified when the stored value is -1: with 8 cores it resolves to
`max(8/2, 2) = 4` and stores it so a later read returns 4, with 2 cores it
resolves to `max(1, 2) = 2`, and a stored default of 1 is returned as-is so
the -1 path never runs in the default configuration. -/
theorem reservedThreads_default_is_one :
    adaptiveServiceExecutorReservedThreadsDefault = 1 ∧
    adaptiveServiceExecutorReservedThreadsDefault ≠ -1 ∧
    reservedThreadsResolve 8 (-1) = (4, 4) ∧
    reservedThreadsResolve 8 4 = (4, 4) ∧
    reservedThreadsResolve 2 (-1) = (2, 2) ∧
    reservedThreadsResolve 8 1 = (1, 1) := by
  decide

/-- A configuration with `runTimeJitter` larger than `workerThreadRunTime`,
used to exhibit the failure of the worker's `dassert(runTime.count() > 0)`. -/
def cfgJitterDemo : Options :=
  { reservedThreads := 2, workerThreadRunTime := 5000, runTimeJitter := 6000,
    stuckThreadTimeout := 250, maxQueueLatency := 500, idlePctThreshold := 60,
    recursionLimit := 8 }

/-- C5: with `runTimeJitter = 6000` and `workerThreadRunTime = 5000`, the
draw -5500 lies within `[-runTimeJitter, +runTimeJitter]`, is not clamped
(the clamp in `_getThreadJitter` only fires when the jitter exceeds
`workerThreadRunTime`, i.e. only on the positive side), and yields
`runTime = 5000 - 5500 = -500`, so the source's own
`dassert(runTime.count() > 0)` is violated: `run_time > 0` does not hold for
every configuration. -/
theorem workerRunTime_assert_fails :
    -cfgJitterDemo.runTimeJitter ≤ -5500 ∧
    (-5500 : Int) ≤ cfgJitterDemo.runTimeJitter ∧
    getThreadJitter cfgJitterDemo (-5500) = -5500 ∧
    workerRunTime cfgJitterDemo (-5500) = -500 ∧
    ¬(0 < workerRunTime cfgJitterDemo (-5500)) := by
  decide

/-- C2: in a controller iteration whose wait timed out
(`sinceLastControlRound.sinceStart() ≥ stuckThreadTimeout()`), the stuck path
spawns exactly `reservedThreads()` workers when `threads_in_use` equals
`threads_running` and `sinceLastSchedule ≥ stuckThreadTimeout()`, and spawns
none when either condition fails. -/
theorem controllerStep_stuck_spawns (cfg : Options)
    (elapsed lastSched dE dR sR : Int) (s : ExecStats)
    (ht : elapsed ≥ cfg.stuckThreadTimeout) (hres : 0 ≤ cfg.reservedThreads) :
    ((controllerStep cfg elapsed lastSched dE dR sR s).stuckSpawns : Int) =
      if s.threadsInUse = s.threadsRunning ∧ lastSched ≥ cfg.stuckThreadTimeout
      then cfg.reservedThreads else 0 := by
  simp only [controllerStep]
  rw [if_pos ht]
  split_ifs with h2
  · simp [Int.toNat_of_nonneg hres]
  · simp

/-- Witness for `controllerStep_stuck_spawns`: an all-busy pool with no
recent schedule at the moment the controller wait times out; the stuck path
spawns the two reserved workers. -/
theorem controllerStep_stuck_spawns_witness :
    (250 : Int) ≥ (250 : Int) ∧ (0 : Int) ≤ (2 : Int) ∧
    ((controllerStep
        { reservedThreads := 2, workerThreadRunTime := 5000, runTimeJitter := 500,
          stuckThreadTimeout := 250, maxQueueLatency := 500, idlePctThreshold := 60,
          recursionLimit := 8 } 250 300 0 0 0
        { threadsRunning := 2, threadsPending := 0, threadsInUse := 2,
          tasksQueued := 5, deferredTasksQueued := 0, totalQueued := 5,
          totalExecuted := 0 }).stuckSpawns : Int) = 2 := by
  refine ⟨by decide, by decide, ?_⟩
  have h := controllerStep_stuck_spawns
    { reservedThreads := 2, workerThreadRunTime := 5000, runTimeJitter := 500,
      stuckThreadTimeout := 250, maxQueueLatency := 500, idlePctThreshold := 60,
      recursionLimit := 8 } 250 300 0 0 0
    { threadsRunning := 2, threadsPending := 0, threadsInUse := 2,
      tasksQueued := 5, deferredTasksQueued := 0, totalQueued := 5,
      totalExecuted := 0 } (by decide) (by decide)
  rw [h]
  decide

/-- C10: whenever a controller iteration's wait timed out, that iteration
ends right after the stuck check: the reserve refill, the utilization
saturation gate, the latency-budget wait, and the starvation-driven
single-worker spawn all do not run in that iteration. -/
theorem controllerStep_timeout_skips_growth (cfg : Options)
    (elapsed lastSched dE dR sR : Int) (s : ExecStats)
    (ht : elapsed ≥ cfg.stuckThreadTimeout) :
    (controllerStep cfg elapsed lastSched dE dR sR s).refillSpawns = 0 ∧
    (controllerStep cfg elapsed lastSched dE dR sR s).utilizationGateReached = false ∧
    (controllerStep cfg elapsed lastSched dE dR sR s).latencyWaited = false ∧
    (controllerStep cfg elapsed lastSched dE dR sR s).starvationSpawn = false := by
  simp only [controllerStep]
  rw [if_pos ht]
  split_ifs with h2 <;> simp

/-- Witness for `controllerStep_timeout_skips_growth`: a timed-out iteration
in which the stuck condition does not hold (`threads_in_use ≠
threads_running`) and the pool is below the reserve
(`threads_running = 1 < 2 = reservedThreads`): still nothing below the stuck
check runs. -/
theorem controllerStep_timeout_skips_growth_witness :
    (250 : Int) ≥ (250 : Int) ∧
    ¬((0 : Int) = (1 : Int)) ∧ (1 : Int) < (2 : Int) ∧
    ((controllerStep
        { reservedThreads := 2, workerThreadRunTime := 5000, runTimeJitter := 500,
          stuckThreadTimeout := 250, maxQueueLatency := 500, idlePctThreshold := 60,
          recursionLimit := 8 } 250 0 0 0 0
        { threadsRunning := 1, threadsPending := 0, threadsInUse := 0,
          tasksQueued := 3, deferredTasksQueued := 0, totalQueued := 3,
          totalExecuted := 0 }).refillSpawns = 0 ∧
     (controllerStep
        { reservedThreads := 2, workerThreadRunTime := 5000, runTimeJitter := 500,
          stuckThreadTimeout := 250, maxQueueLatency := 500, idlePctThreshold := 60,
          recursionLimit := 8 } 250 0 0 0 0
        { threadsRunning := 1, threadsPending := 0, threadsInUse := 0,
          tasksQueued := 3, deferredTasksQueued := 0, totalQueued := 3,
          totalExecuted := 0 }).utilizationGateReached = false ∧
     (controllerStep
        { reservedThreads := 2, workerThreadRunTime := 5000, runTimeJitter := 500,
          stuckThreadTimeout := 250, maxQueueLatency := 500, idlePctThreshold := 60,
          recursionLimit := 8 } 250 0 0 0 0
        { threadsRunning := 1, threadsPending := 0, threadsInUse := 0,
          tasksQueued := 3, deferredTasksQueued := 0, totalQueued := 3,
          totalExecuted := 0 }).latencyWaited = false ∧
     (controllerStep
        { reservedThreads := 2, workerThreadRunTime := 5000, runTimeJitter := 500,
          stuckThreadTimeout := 250, maxQueueLatency := 500, idlePctThreshold := 60,
          recursionLimit := 8 } 250 0 0 0 0
        { threadsRunning := 1, threadsPending := 0, threadsInUse := 0,
          tasksQueued := 3, deferredTasksQueued := 0, totalQueued := 3,
          totalExecuted := 0 }).starvationSpawn = false) :=
  ⟨by decide, by decide, by decide,
    controllerStep_timeout_skips_growth
      { reservedThreads := 2, workerThreadRunTime := 5000, runTimeJitter := 500,
        stuckThreadTimeout := 250, maxQueueLatency := 500, idlePctThreshold := 60,
        recursionLimit := 8 } 250 0 0 0 0
      { threadsRunning := 1, threadsPending := 0, threadsInUse := 0,
        tasksQueued := 3, deferredTasksQueued := 0, totalQueued := 3,
        totalExecuted := 0 } (by decide)⟩

/-- Truncating the nonnegative quotient `100 * e / r` to an integer (what the
worker's `static_cast<int>` does to the double ratio, embedded as `Nat` floor
division) and comparing with an integer threshold is the same as comparing
the exact ratio with the threshold. -/
theorem truncatedPct_lt_iff (e r : Nat) (t : Int) (hr : 0 < r) :
    (((100 * e) / r : Nat) : Int) < t ↔ (100 * e : ℚ) / (r : ℚ) < (t : ℚ) := by
  rcases le_or_lt t 0 with h | h
  · have h1 : ¬ ((((100 * e) / r : Nat) : Int) < t) := by
      have h0 : (0 : Int) ≤ (((100 * e) / r : Nat) : Int) := Int.ofNat_nonneg _
      omega
    have h2 : ¬ ((100 * e : ℚ) / (r : ℚ) < (t : ℚ)) := by
      have htq : (t : ℚ) ≤ 0 := by exact_mod_cast h
      have h0 : (0 : ℚ) ≤ (100 * e : ℚ) / (r : ℚ) := by positivity
      linarith
    exact iff_of_false h1 h2
  · have hrq : (0 : ℚ) < (r : ℚ) := by exact_mod_cast hr
    rw [div_lt_iff₀ hrq]
    obtain ⟨tn, rfl⟩ := Int.eq_ofNat_of_zero_le (le_of_lt h)
    constructor
    · intro hlt
      have h3 : (100 * e) / r < tn := by exact_mod_cast hlt
      have h4 : 100 * e < tn * r := (Nat.div_lt_iff_lt_mul hr).mp h3
      exact_mod_cast h4
    · intro hlt
      have h4 : 100 * e < tn * r := by exact_mod_cast hlt
      have h3 : (100 * e) / r < tn := (Nat.div_lt_iff_lt_mul hr).mpr h4
      exact_mod_cast h3

/-- C3: after a completed run slice, a worker voluntarily exits its loop
exactly when `stillPending` is false, `threads_running > reservedThreads()`,
and the percentage of the slice spent executing
(`100 · executingCurRun / spentRunning`) is below `idlePctThreshold()`; in
particular a worker never exits voluntarily while `threads_running` is at or
below `reservedThreads()`. -/
theorem workerSliceExit_iff (cfg : Options) (stillPending : Bool)
    (tr : Int) (e r : Nat) (hr : 0 < r) :
    (workerSliceExit cfg stillPending tr e r = true ↔
      stillPending = false ∧ cfg.reservedThreads < tr ∧
        (100 * e : ℚ) / (r : ℚ) < (cfg.idlePctThreshold : ℚ)) ∧
    (tr ≤ cfg.reservedThreads → workerSliceExit cfg stillPending tr e r = false) := by
  constructor
  · simp only [workerSliceExit]
    cases stillPending
    · simp only [Bool.false_eq_true, if_false, gt_iff_lt]
      split_ifs with h1
      · simp only [decide_eq_true_eq, true_and, h1]
        rw [truncatedPct_lt_iff e r cfg.idlePctThreshold hr]
      · simp only [Bool.false_eq_true, false_iff]
        tauto
    · simp
  · intro hle
    simp only [workerSliceExit]
    cases stillPending
    · simp only [Bool.false_eq_true, if_false, gt_iff_lt]
      rw [if_neg (by omega)]
    · simp

/-- Witness for `workerSliceExit_iff`: a non-pending worker in a pool of 3
with reserve 2 that spent 1 of 10 ticks executing (10% < the 60% threshold)
does exit; the same worker in a pool at the reserve does not. -/
theorem workerSliceExit_iff_witness :
    (0 : Nat) < 10 ∧
    workerSliceExit
      { reservedThreads := 2, workerThreadRunTime := 5000, runTimeJitter := 500,
        stuckThreadTimeout := 250, maxQueueLatency := 500, idlePctThreshold := 60,
        recursionLimit := 8 } false 3 1 10 = true ∧
    workerSliceExit
      { reservedThreads := 2, workerThreadRunTime := 5000, runTimeJitter := 500,
        stuckThreadTimeout := 250, maxQueueLatency := 500, idlePctThreshold := 60,
        recursionLimit := 8 } false 2 1 10 = false := by
  refine ⟨by decide, ?_, ?_⟩
  · exact (workerSliceExit_iff
      { reservedThreads := 2, workerThreadRunTime := 5000, runTimeJitter := 500,
        stuckThreadTimeout := 250, maxQueueLatency := 500, idlePctThreshold := 60,
        recursionLimit := 8 } false 3 1 10 (by decide)).1.mpr
      ⟨rfl, by decide, by norm_num⟩
  · exact (workerSliceExit_iff
      { reservedThreads := 2, workerThreadRunTime := 5000, runTimeJitter := 500,
        stuckThreadTimeout := 250, maxQueueLatency := 500, idlePctThreshold := 60,
        recursionLimit := 8 } false 2 1 10 (by decide)).2 (by decide)

/-- A nested (non-outermost) balanced run entered at recursion depth ≥ 1
leaves the recursion depth, the executing stopwatch, `executingCurRun` and
`threadsInUse` unchanged, and increments `totalExecuted` once per body. -/
theorem runNestedFrom_deep (n : Nat) : ∀ (i : Nat) (tE tX : Nat → Int) (st : TaskEnv),
    1 ≤ st.recursionDepth →
    (runNestedFrom n i tE tX st).recursionDepth = st.recursionDepth ∧
    (runNestedFrom n i tE tX st).execOpen = st.execOpen ∧
    (runNestedFrom n i tE tX st).execStart = st.execStart ∧
    (runNestedFrom n i tE tX st).executingCurRun = st.executingCurRun ∧
    (runNestedFrom n i tE tX st).threadsInUse = st.threadsInUse ∧
    (runNestedFrom n i tE tX st).totalExecuted = st.totalExecuted + n := by
  induction n with
  | zero =>
      intro i tE tX st h
      simp [runNestedFrom]
  | succ k ih =>
      intro i tE tX st h
      simp only [runNestedFrom]
      have hEnter : taskEnter st (tE i) =
          { st with recursionDepth := st.recursionDepth + 1 } := by
        simp only [taskEnter]
        rw [if_neg (by omega)]
      rw [hEnter]
      obtain ⟨h1, h2, h3, h4, h5, h6⟩ :=
        ih (i + 1) tE tX { st with recursionDepth := st.recursionDepth + 1 } (by simp; omega)
      simp only at h1 h2 h3 h4 h5 h6
      simp only [taskExit]
      rw [if_neg (by omega)]
      refine ⟨by simp [h1], by simp [h2], by simp [h3], by simp [h4], by simp [h5], ?_⟩
      simp only [h6]
      push_cast
      ring

/-- C6: in every wrapped-task execution, `taskEnter` starts the executing
stopwatch and increments `threads_in_use` only on the recursion-depth
transition from 0 to 1; the scope guard `taskExit` always decrements the
depth and increments `total_executed`, and folds the executing interval into
`executingCurRun` and decrements `threads_in_use` only when the depth
returns to 0; consequently a balanced nested run of `n ≥ 1` task bodies
starting at depth 0 leaves `threads_in_use` unchanged, adds exactly the
single outermost interval to `executingCurRun`, and adds `n` to
`total_executed`. -/
theorem taskWrapper_accounting (st0 st : TaskEnv) (now : Int) (n : Nat)
    (tE tX : Nat → Int) (hd : st0.recursionDepth = 0) (hn : 1 ≤ n) :
    (taskEnter st now).recursionDepth = st.recursionDepth + 1 ∧
    (taskEnter st now).threadsInUse =
      st.threadsInUse + (if st.recursionDepth = 0 then 1 else 0) ∧
    (taskEnter st now).execOpen =
      (if st.recursionDepth = 0 then true else st.execOpen) ∧
    (taskExit st now).recursionDepth = st.recursionDepth - 1 ∧
    (taskExit st now).threadsInUse =
      st.threadsInUse - (if st.recursionDepth - 1 = 0 then 1 else 0) ∧
    (taskExit st now).executingCurRun =
      st.executingCurRun + (if st.recursionDepth - 1 = 0 then now - st.execStart else 0) ∧
    (taskExit st now).totalExecuted = st.totalExecuted + 1 ∧
    (runNested n tE tX st0).recursionDepth = 0 ∧
    (runNested n tE tX st0).threadsInUse = st0.threadsInUse ∧
    (runNested n tE tX st0).executingCurRun = st0.executingCurRun + (tX 0 - tE 0) ∧
    (runNested n tE tX st0).totalExecuted = st0.totalExecuted + n := by
  refine ⟨?_, ?_, ?_, ?_, ?_, ?_, ?_, ?_⟩
  · simp only [taskEnter]
    split_ifs <;> simp
  · simp only [taskEnter]
    split_ifs <;> simp
  · simp only [taskEnter]
    split_ifs <;> simp
  · simp only [taskExit]
    split_ifs <;> simp
  · simp only [taskExit]
    split_ifs <;> simp
  · simp only [taskExit]
    split_ifs <;> simp
  · simp only [taskExit]
    split_ifs <;> simp
  · obtain ⟨m, rfl⟩ : ∃ m, n = m + 1 := ⟨n - 1, by omega⟩
    simp only [runNested, runNestedFrom, Nat.zero_add]
    have hEnter : taskEnter st0 (tE 0) =
        { st0 with recursionDepth := 1, execOpen := true, execStart := tE 0,
                   threadsInUse := st0.threadsInUse + 1 } := by
      simp [taskEnter, hd]
    rw [hEnter]
    obtain ⟨h1, h2, h3, h4, h5, h6⟩ :=
      runNestedFrom_deep m 1 tE tX
        { st0 with recursionDepth := 1, execOpen := true, execStart := tE 0,
                   threadsInUse := st0.threadsInUse + 1 } (by simp)
    simp only at h1 h2 h3 h4 h5 h6
    simp only [taskExit]
    rw [if_pos (by omega)]
    refine ⟨by simp [h1], by simp [h5], by simp [h3, h4], ?_⟩
    simp only [h6]
    push_cast
    ring

/-- Witness for `taskWrapper_accounting`: a depth-2 nested run starting from
an idle thread state. -/
theorem taskWrapper_accounting_witness :
    ((0 : Int) = 0 ∧ 1 ≤ 2) ∧
    (runNested 2 (fun i => 10 + i) (fun i => 20 - i)
        { recursionDepth := 0, execOpen := false, execStart := 0,
          executingCurRun := 0, threadsInUse := 1, totalExecuted := 5 }).threadsInUse = 1 ∧
    (runNested 2 (fun i => 10 + i) (fun i => 20 - i)
        { recursionDepth := 0, execOpen := false, execStart := 0,
          executingCurRun := 0, threadsInUse := 1, totalExecuted := 5 }).executingCurRun = 10 ∧
    (runNested 2 (fun i => 10 + i) (fun i => 20 - i)
        { recursionDepth := 0, execOpen := false, execStart := 0,
          executingCurRun := 0, threadsInUse := 1, totalExecuted := 5 }).totalExecuted = 7 := by
  refine ⟨⟨by decide, by decide⟩, ?_, ?_, ?_⟩
  · have h := taskWrapper_accounting
      { recursionDepth := 0, execOpen := false, execStart := 0,
        executingCurRun := 0, threadsInUse := 1, totalExecuted := 5 }
      { recursionDepth := 0, execOpen := false, execStart := 0,
        executingCurRun := 0, threadsInUse := 1, totalExecuted := 5 }
      0 2 (fun i => 10 + i) (fun i => 20 - i) (by decide) (by decide)
    rw [h.2.2.2.2.2.2.2.2.1]
  · have h := taskWrapper_accounting
      { recursionDepth := 0, execOpen := false, execStart := 0,
        executingCurRun := 0, threadsInUse := 1, totalExecuted := 5 }
      { recursionDepth := 0, execOpen := false, execStart := 0,
        executingCurRun := 0, threadsInUse := 1, totalExecuted := 5 }
      0 2 (fun i => 10 + i) (fun i => 20 - i) (by decide) (by decide)
    rw [h.2.2.2.2.2.2.2.2.2.1]
    decide
  · have h := taskWrapper_accounting
      { recursionDepth := 0, execOpen := false, execStart := 0,
        executingCurRun := 0, threadsInUse := 1, totalExecuted := 5 }
      { recursionDepth := 0, execOpen := false, execStart := 0,
        executingCurRun := 0, threadsInUse := 1, totalExecuted := 5 }
      0 2 (fun i => 10 + i) (fun i => 20 - i) (by decide) (by decide)
    rw [h.2.2.2.2.2.2.2.2.2.2]
    decide

end SEAdaptive
